import Mathlib

/-!
Shallow embedding of the SafeGlide landing simulator core (src/src/App.js).

The per-frame update of the `Airplane` component (its `useFrame` callback,
together with the helper functions `evaluateRisk` and `aiAssist`) is modelled
as a pure function `tick : TickInput → Sim → Sim` over exact rationals.
JavaScript numbers are modelled as `ℚ`; `Math.sin`/`Math.cos` of the wind
direction and the three `Math.random()` draws used by turbulence are injected
through `TickInput` (the theorems that need them only use the bounds that the
JavaScript functions guarantee, such as `|sin x| ≤ 1`).  Purely cosmetic
effects (camera follow/shake, particle bursts, the airbag mesh, log text) do
not feed back into the simulation state and are omitted; React state updates
(`setAirbagTriggered`, clearing `settings.birdStrike`) are modelled as taking
effect for the next tick, which is observationally equivalent per tick since
each of those values is read at most once, and only before it is written,
within a single `useFrame` call.
-/

namespace SafeGlide

/-- The landing phase (`S.landingState` strings in the source). -/
inductive Phase
  | approaching
  | flaring
  | emergency_descent
  | touchdown
  | rolling
  | stopped
  | crashed
  deriving DecidableEq, Repr

/-- Operator-settable configuration read by the tick (the `settings` fields it
never writes, plus the `manualDeploy` prop coming from `airbagClicked`). -/
structure Env where
  gearFailure : Bool
  throttleFailure : Bool
  turbulence : Bool
  windSpeed : ℚ
  windDirection : ℚ
  aiAssist : Bool
  autopilot : Bool
  manualDeploy : Bool
  deriving DecidableEq, Repr

/-- Mutable simulation state: the `sref` record, the airplane group's
position/rotation components that the tick reads or writes, the
`isAirbagTriggered` React state, and the `settings.birdStrike` request flag
(which the tick itself clears). -/
structure Sim where
  landingState : Phase
  rollSpeed : ℚ
  velocityZ : ℚ
  throttle : ℚ
  damage : ℚ
  flaps : ℚ
  heading : ℚ
  pitch : ℚ
  vs : ℚ
  postBirdStrikeX : ℚ
  postBirdStrikeZ : ℚ
  birdApplied : Bool
  posX : ℚ
  posY : ℚ
  posZ : ℚ
  rotX : ℚ
  rotZ : ℚ
  isAirbagTriggered : Bool
  birdStrike : Bool
  deriving DecidableEq, Repr

-- SIM_CONFIG constants.
def START_Z : ℚ := -1200
def START_Y : ℚ := 90
def TOUCHDOWN_Z : ℚ := 210
def RUNWAY_END_Z : ℚ := 640
def LANDING_ALTITUDE : ℚ := 0.9
def FLARE_PULL_UP : ℚ := 0.08
def APPROACH_ROT : ℚ := -0.06
def CRASH_GROUND_Y : ℚ := 0.45
def BASE_SPEED : ℚ := 40
def THROTTLE_FAILURE_SPEED : ℚ := 18

/-- `Math.min`, written with a kernel-reducible `if` so that concrete runs
evaluate by `decide`. -/
def qmin (a b : ℚ) : ℚ := if a ≤ b then a else b

/-- `Math.max`, written with a kernel-reducible `if`. -/
def qmax (a b : ℚ) : ℚ := if a ≤ b then b else a

/-- `Math.abs`, written with a kernel-reducible `if`. -/
def qabs (a : ℚ) : ℚ := if a < 0 then -a else a

/-- `THREE.MathUtils.clamp(value, min, max)`. -/
def clamp (v lo hi : ℚ) : ℚ := qmax lo (qmin hi v)

/-- `THREE.MathUtils.lerp(x, y, t) = (1 - t) * x + t * y`. -/
def lerp (x y t : ℚ) : ℚ := (1 - t) * x + t * y

/-- `evaluateRisk()` from the source, verbatim structure. -/
def evaluateRisk (env : Env) (w : Sim) : Bool :=
  let criticalAlt := decide (w.posY < 70)
  let highDescRate := decide (w.vs < -1000)
  let heavyDamage := decide (w.damage > 0.7)
  let gearUnsafe := env.gearFailure && decide (w.posZ > 100)
  let isStalling := decide (w.velocityZ * w.throttle < 15) && decide (w.posY < 20)
  let isCritical := highDescRate || heavyDamage || gearUnsafe || isStalling
  criticalAlt && isCritical

/-- One frame's worth of inputs: the config snapshot, the frame delta (seconds),
the values of `Math.sin`/`Math.cos` at `windDirection * π / 180`, and the three
`Math.random()` draws consumed by the turbulence block. -/
structure TickInput where
  env : Env
  delta : ℚ
  sinWind : ℚ
  cosWind : ℚ
  r1 : ℚ
  r2 : ℚ
  r3 : ℚ
  deriving DecidableEq, Repr

def crosswindEffect (i : TickInput) : ℚ := i.sinWind * i.env.windSpeed * 0.02

def headwindEffect (i : TickInput) : ℚ := i.cosWind * i.env.windSpeed * 0.1

/-- Guard of the airbag trigger block (`(unrecoverable || manualDeploy) && !isAirbagTriggered`). -/
def triggerFires (i : TickInput) (w : Sim) : Bool :=
  (evaluateRisk i.env w || i.env.manualDeploy) && !w.isAirbagTriggered

/-- Airbag trigger block (source lines 517-522). -/
def triggerStep (i : TickInput) (w : Sim) : Sim :=
  if triggerFires i w then
    { w with isAirbagTriggered := true, landingState := Phase.emergency_descent }
  else w

/-- Weather effects application (source lines 524-538). -/
def weatherStep (i : TickInput) (w : Sim) : Sim :=
  if w.landingState ≠ Phase.crashed ∧ w.landingState ≠ Phase.stopped then
    let w1 := { w with posX := w.posX - crosswindEffect i * i.delta }
    if i.env.turbulence then
      { w1 with
        rotX := w1.rotX + (i.r1 - 0.5) * 0.4 * i.delta,
        rotZ := w1.rotZ + (i.r2 - 0.5) * 0.4 * i.delta,
        posY := w1.posY + (i.r3 - 0.5) * 0.4 * 0.2 * i.delta }
    else w1
  else w

/-- Guard of the bird-strike block. -/
def birdFires (w : Sim) : Bool :=
  w.birdStrike && !w.birdApplied && decide (w.landingState ≠ Phase.crashed)

/-- Bird strike effect update (source lines 540-551).  `_birdApplied` is set and
never cleared within a run; the request flag `settings.birdStrike` is cleared. -/
def birdStep (w : Sim) : Sim :=
  if birdFires w then
    { w with
      birdApplied := true,
      damage := qmin 1 (w.damage + 0.55),
      birdStrike := false,
      postBirdStrikeX := 0.5,
      postBirdStrikeZ := 0.35,
      throttle := qmax 0 (w.throttle - 0.6) }
  else w

/-- Post-bird-strike rotation dampening (source lines 553-559). -/
def dampStep (d : ℚ) (w : Sim) : Sim :=
  let px := lerp w.postBirdStrikeX 0 (d * 3)
  let pz := lerp w.postBirdStrikeZ 0 (d * 3)
  { w with
    rotX := w.rotX + px * d * 2,
    rotZ := w.rotZ + pz * d * 2,
    postBirdStrikeX := if qabs px < 0.01 then 0 else px,
    postBirdStrikeZ := if qabs pz < 0.01 then 0 else pz }

/-- Recomputation of `S.velocityZ` (source lines 561-563). -/
def speedStep (i : TickInput) (w : Sim) : Sim :=
  let base := if i.env.throttleFailure then THROTTLE_FAILURE_SPEED else BASE_SPEED
  { w with velocityZ := base * w.throttle + (if i.env.autopilot then 6 else 0) - headwindEffect i }

/-- The landing-phase switch (source lines 565-634). -/
def phaseStep (i : TickInput) (w : Sim) : Sim :=
  match w.landingState with
  | Phase.approaching =>
      let z := w.posZ + w.velocityZ * i.delta
      let progress := clamp ((z - START_Z) / (TOUCHDOWN_Z - START_Z)) 0 1
      let eased := progress * progress
      let targetY := lerp START_Y (LANDING_ALTITUDE + 6) eased
      let w2 := { w with
        posZ := z,
        vs := (targetY - w.posY) * 70 * (-40),
        posY := targetY,
        rotX := APPROACH_ROT }
      if w2.posZ ≥ TOUCHDOWN_Z - 90 then { w2 with landingState := Phase.flaring } else w2
  | Phase.flaring =>
      let z := w.posZ + qmax 18 (w.velocityZ * 0.8) * i.delta
      let rx := lerp w.rotX FLARE_PULL_UP (i.delta * 2)
      let targetY := lerp w.posY (LANDING_ALTITUDE + 0.1) (i.delta * 0.9)
      let w2 := { w with
        posZ := z,
        rotX := rx,
        vs := (targetY - w.posY) * 70 * (-40),
        posY := targetY }
      if w2.posY ≤ LANDING_ALTITUDE + 0.05 then
        if i.env.gearFailure ∨ w2.damage > 0.55 then
          { w2 with landingState := Phase.crashed }
        else
          { w2 with landingState := Phase.touchdown }
      else w2
  | Phase.emergency_descent =>
      let w2 := { w with
        rotX := lerp w.rotX 0 (i.delta * 1.5),
        rotZ := lerp w.rotZ 0 (i.delta * 1.5),
        posY := qmax LANDING_ALTITUDE (w.posY - i.delta * 5),
        vs := -980,
        posZ := w.posZ + 15 * i.delta }
      if w2.posY ≤ LANDING_ALTITUDE then
        { w2 with landingState := Phase.rolling, rollSpeed := 8 }
      else w2
  | Phase.touchdown =>
      { w with posY := LANDING_ALTITUDE, landingState := Phase.rolling }
  | Phase.rolling =>
      let decel : ℚ := if w.isAirbagTriggered then 22 else if i.env.throttleFailure then 11 else 7
      let w2 := { w with
        posZ := w.posZ + w.rollSpeed * i.delta * (1 - w.damage * 0.6),
        rollSpeed := qmax 0 (w.rollSpeed - i.delta * decel - w.damage * i.delta * 8) }
      if w2.posZ ≥ RUNWAY_END_Z ∨ w2.rollSpeed ≤ 0.05 then
        { w2 with landingState := Phase.stopped }
      else w2
  | Phase.crashed =>
      if w.posY > CRASH_GROUND_Y then
        { w with
          posY := w.posY - i.delta * (22 + 40 * w.damage),
          rotX := w.rotX + i.delta * (2 + 3 * w.damage),
          rotZ := w.rotZ + i.delta * (1.5 + 3 * w.damage) }
      else
        { w with
          posY := CRASH_GROUND_Y,
          posZ := w.posZ + w.rollSpeed * i.delta * 0.5,
          rollSpeed := qmax 0 (w.rollSpeed - i.delta * (22 + 38 * w.damage)) }
  | Phase.stopped => w

/-- Body of `aiAssist(delta)` (source lines 481-499). -/
def aiAssistFn (i : TickInput) (w : Sim) : Sim :=
  let progress := clamp ((w.posZ - START_Z) / (TOUCHDOWN_Z - START_Z)) 0 1
  let desiredAlt := lerp START_Y (LANDING_ALTITUDE + 2) (progress * progress)
  let altError := desiredAlt - w.posY
  let w1 :=
    if !i.env.throttleFailure then
      let speed := w.velocityZ * w.throttle
      let err := BASE_SPEED - speed
      { w with throttle := clamp (w.throttle + clamp (err * 0.0005 * i.delta * 60) (-0.02) 0.02) 0 1 }
    else w
  let pitchCorr := clamp (altError * 0.02) (-0.03) 0.03
  let w2 := { w1 with rotX := w1.rotX - pitchCorr * i.delta * 10, rotZ := w1.rotZ * 0.985 }
  if (420 : ℚ) ≤ w2.posZ ∧ (6 : ℚ) < w2.rollSpeed then
    { w2 with rollSpeed := qmax 6 (w2.rollSpeed - i.delta * 12) }
  else w2

/-- Conditional aiAssist invocation (source line 636), which reads the
post-switch landing state. -/
def assistStep (i : TickInput) (w : Sim) : Sim :=
  if i.env.aiAssist ∧ (w.landingState = Phase.approaching ∨ w.landingState = Phase.flaring) then
    aiAssistFn i w
  else w

/-- One full `useFrame` tick, composing the blocks in source order. -/
def tick (i : TickInput) (w : Sim) : Sim :=
  assistStep i (phaseStep i (speedStep i (dampStep i.delta (birdStep (weatherStep i (triggerStep i w))))))

/-- Initial `sref`/position/React state (source lines 457-469 and 671, with
`isAirbagTriggered = false` and no pending bird-strike request). -/
def initState : Sim where
  landingState := Phase.approaching
  rollSpeed := 26
  velocityZ := 40
  throttle := 1
  damage := 0
  flaps := 0
  heading := 0
  pitch := 0
  vs := -200
  postBirdStrikeX := 0
  postBirdStrikeZ := 0
  birdApplied := false
  posX := 0
  posY := START_Y
  posZ := START_Z
  rotX := 0
  rotZ := 0
  isAirbagTriggered := false
  birdStrike := false

/-- Initial settings (source lines 722-733). -/
def initEnv : Env where
  gearFailure := false
  throttleFailure := false
  turbulence := false
  windSpeed := 6
  windDirection := 90
  aiAssist := true
  autopilot := true
  manualDeploy := false

/-- A run: fold the tick over a list of per-frame inputs. -/
def run (w : Sim) (l : List TickInput) : Sim := l.foldl (fun s i => tick i s) w

/-- The TRIGGER BIRD STRIKE button (source line 220): sets the request flag
unless the simulation has crashed. -/
def requestBirdStrike (w : Sim) : Sim :=
  if w.landingState = Phase.crashed then w else { w with birdStrike := true }

-- Concrete environments / inputs / states used by witnesses and counterexamples.

def calmEnv : Env := { initEnv with windSpeed := 0 }

/-- Nominal 60 fps frame: default settings, wind 6 kt from 90°, so
`sin = 1`, `cos = 0` exactly. -/
def nominalInput : TickInput :=
  { env := initEnv, delta := 1/60, sinWind := 1, cosWind := 0, r1 := 1/2, r2 := 1/2, r3 := 1/2 }

/-- A frame with zero elapsed time and no wind (used to isolate the bird-strike logic). -/
def zeroDeltaInput : TickInput :=
  { env := calmEnv, delta := 0, sinWind := 1, cosWind := 0, r1 := 1/2, r2 := 1/2, r3 := 1/2 }

/-- A frame with a pending manual airbag-deploy request. -/
def deployInput : TickInput :=
  { zeroDeltaInput with env := { calmEnv with manualDeploy := true }, delta := 1/20 }

def bigDeltaInput : TickInput := { zeroDeltaInput with delta := 1/10 }

def smallDeltaInput : TickInput := { zeroDeltaInput with delta := 1/20 }

/-- A state whose airbag has already been triggered. -/
def trigState : Sim := { initState with isAirbagTriggered := true }

/-- An airborne state barely above the landing altitude. -/
def lowState : Sim := { initState with posY := 1 }

/-- A crashed state resting on the ground with a pending-free config. -/
def crashedState : Sim := { initState with landingState := Phase.crashed, posY := CRASH_GROUND_Y }

/-- A crashed state whose airbag has already been triggered. -/
def crashedQuiet : Sim :=
  { initState with landingState := Phase.crashed, posY := CRASH_GROUND_Y, isAirbagTriggered := true }

/-- A state at flare entry (the approach hand-off puts the aircraft near 17 m). -/
def flareState : Sim := { initState with landingState := Phase.flaring, posY := 17, posZ := 120, vs := 100 }

-- Batteries marks the rational operations irreducible, which blocks `decide`
-- on concrete runs; restore normal unfolding for them.
attribute [local semireducible] Rat.mul Rat.inv Rat.add Rat.sub Rat.ofScientific

lemma qmin_eq_min (a b : ℚ) : qmin a b = min a b := by simp [qmin, min_def]

lemma qmax_eq_max (a b : ℚ) : qmax a b = max a b := by simp [qmax, max_def]

lemma qabs_eq_abs (a : ℚ) : qabs a = |a| := by
  rcases lt_or_le a 0 with h | h
  · simp [qabs, h, abs_of_neg h]
  · simp [qabs, not_lt.mpr h, abs_of_nonneg h]

-- Field-preservation lemmas for `triggerStep`.

@[simp] lemma triggerStep_damage (i : TickInput) (w : Sim) :
    (triggerStep i w).damage = w.damage := by
  unfold triggerStep; split <;> rfl

@[simp] lemma triggerStep_posX (i : TickInput) (w : Sim) :
    (triggerStep i w).posX = w.posX := by
  unfold triggerStep; split <;> rfl

@[simp] lemma triggerStep_posY (i : TickInput) (w : Sim) :
    (triggerStep i w).posY = w.posY := by
  unfold triggerStep; split <;> rfl

@[simp] lemma triggerStep_posZ (i : TickInput) (w : Sim) :
    (triggerStep i w).posZ = w.posZ := by
  unfold triggerStep; split <;> rfl

@[simp] lemma triggerStep_velocityZ (i : TickInput) (w : Sim) :
    (triggerStep i w).velocityZ = w.velocityZ := by
  unfold triggerStep; split <;> rfl

@[simp] lemma triggerStep_throttle (i : TickInput) (w : Sim) :
    (triggerStep i w).throttle = w.throttle := by
  unfold triggerStep; split <;> rfl

@[simp] lemma triggerStep_birdStrike (i : TickInput) (w : Sim) :
    (triggerStep i w).birdStrike = w.birdStrike := by
  unfold triggerStep; split <;> rfl

@[simp] lemma triggerStep_birdApplied (i : TickInput) (w : Sim) :
    (triggerStep i w).birdApplied = w.birdApplied := by
  unfold triggerStep; split <;> rfl

lemma triggerStep_flag (i : TickInput) (w : Sim) :
    (triggerStep i w).isAirbagTriggered =
      (w.isAirbagTriggered || (evaluateRisk i.env w || i.env.manualDeploy)) := by
  unfold triggerStep triggerFires
  cases hf : w.isAirbagTriggered <;> cases hr : (evaluateRisk i.env w || i.env.manualDeploy) <;>
    simp [hf, hr]

lemma triggerStep_of_not_fires (i : TickInput) (w : Sim) (h : triggerFires i w = false) :
    triggerStep i w = w := by
  unfold triggerStep; rw [h]; rfl

lemma triggerStep_of_fires (i : TickInput) (w : Sim) (h : triggerFires i w = true) :
    triggerStep i w =
      { w with isAirbagTriggered := true, landingState := Phase.emergency_descent } := by
  unfold triggerStep; rw [h]; rfl

lemma triggerStep_landingState_ne_crashed (i : TickInput) (w : Sim)
    (h : w.landingState ≠ Phase.crashed) :
    (triggerStep i w).landingState ≠ Phase.crashed := by
  unfold triggerStep; split
  · exact fun hc => Phase.noConfusion hc
  · exact h

-- Field-preservation lemmas for `weatherStep`.

@[simp] lemma weatherStep_damage (i : TickInput) (w : Sim) :
    (weatherStep i w).damage = w.damage := by
  unfold weatherStep; split <;> (try split) <;> rfl

@[simp] lemma weatherStep_landingState (i : TickInput) (w : Sim) :
    (weatherStep i w).landingState = w.landingState := by
  unfold weatherStep; split <;> (try split) <;> rfl

@[simp] lemma weatherStep_flag (i : TickInput) (w : Sim) :
    (weatherStep i w).isAirbagTriggered = w.isAirbagTriggered := by
  unfold weatherStep; split <;> (try split) <;> rfl

@[simp] lemma weatherStep_posZ (i : TickInput) (w : Sim) :
    (weatherStep i w).posZ = w.posZ := by
  unfold weatherStep; split <;> (try split) <;> rfl

@[simp] lemma weatherStep_velocityZ (i : TickInput) (w : Sim) :
    (weatherStep i w).velocityZ = w.velocityZ := by
  unfold weatherStep; split <;> (try split) <;> rfl

@[simp] lemma weatherStep_throttle (i : TickInput) (w : Sim) :
    (weatherStep i w).throttle = w.throttle := by
  unfold weatherStep; split <;> (try split) <;> rfl

@[simp] lemma weatherStep_birdStrike (i : TickInput) (w : Sim) :
    (weatherStep i w).birdStrike = w.birdStrike := by
  unfold weatherStep; split <;> (try split) <;> rfl

@[simp] lemma weatherStep_birdApplied (i : TickInput) (w : Sim) :
    (weatherStep i w).birdApplied = w.birdApplied := by
  unfold weatherStep; split <;> (try split) <;> rfl

lemma weatherStep_posY_of_calm (i : TickInput) (w : Sim) (h : i.env.turbulence = false) :
    (weatherStep i w).posY = w.posY := by
  unfold weatherStep; split
  · rw [h]; rfl
  · rfl

lemma weatherStep_posX (i : TickInput) (w : Sim) :
    (weatherStep i w).posX =
      (if w.landingState ≠ Phase.crashed ∧ w.landingState ≠ Phase.stopped then
        w.posX - crosswindEffect i * i.delta else w.posX) := by
  unfold weatherStep; split
  · split <;> rfl
  · rfl

-- Field-preservation lemmas for `birdStep`.

@[simp] lemma birdStep_flag (w : Sim) :
    (birdStep w).isAirbagTriggered = w.isAirbagTriggered := by
  unfold birdStep; split <;> rfl

@[simp] lemma birdStep_landingState (w : Sim) :
    (birdStep w).landingState = w.landingState := by
  unfold birdStep; split <;> rfl

@[simp] lemma birdStep_posX (w : Sim) : (birdStep w).posX = w.posX := by
  unfold birdStep; split <;> rfl

@[simp] lemma birdStep_posY (w : Sim) : (birdStep w).posY = w.posY := by
  unfold birdStep; split <;> rfl

@[simp] lemma birdStep_posZ (w : Sim) : (birdStep w).posZ = w.posZ := by
  unfold birdStep; split <;> rfl

@[simp] lemma birdStep_velocityZ (w : Sim) : (birdStep w).velocityZ = w.velocityZ := by
  unfold birdStep; split <;> rfl

lemma birdStep_of_fires (w : Sim) (h : birdFires w = true) :
    birdStep w =
      { w with
        birdApplied := true,
        damage := qmin 1 (w.damage + 0.55),
        birdStrike := false,
        postBirdStrikeX := 0.5,
        postBirdStrikeZ := 0.35,
        throttle := qmax 0 (w.throttle - 0.6) } := by
  unfold birdStep; rw [h]; rfl

lemma birdStep_of_not_fires (w : Sim) (h : birdFires w = false) : birdStep w = w := by
  unfold birdStep; rw [h]; rfl

lemma birdStep_damage_cases (w : Sim) :
    (birdStep w).damage = w.damage ∨ (birdStep w).damage = qmin 1 (w.damage + 0.55) := by
  unfold birdStep; split
  · right; rfl
  · left; rfl

-- Field-preservation lemmas for `dampStep`.

@[simp] lemma dampStep_damage (d : ℚ) (w : Sim) : (dampStep d w).damage = w.damage := rfl

@[simp] lemma dampStep_flag (d : ℚ) (w : Sim) :
    (dampStep d w).isAirbagTriggered = w.isAirbagTriggered := rfl

@[simp] lemma dampStep_landingState (d : ℚ) (w : Sim) :
    (dampStep d w).landingState = w.landingState := rfl

@[simp] lemma dampStep_posX (d : ℚ) (w : Sim) : (dampStep d w).posX = w.posX := rfl

@[simp] lemma dampStep_posY (d : ℚ) (w : Sim) : (dampStep d w).posY = w.posY := rfl

@[simp] lemma dampStep_posZ (d : ℚ) (w : Sim) : (dampStep d w).posZ = w.posZ := rfl

@[simp] lemma dampStep_velocityZ (d : ℚ) (w : Sim) : (dampStep d w).velocityZ = w.velocityZ := rfl

@[simp] lemma dampStep_throttle (d : ℚ) (w : Sim) : (dampStep d w).throttle = w.throttle := rfl

@[simp] lemma dampStep_birdStrike (d : ℚ) (w : Sim) : (dampStep d w).birdStrike = w.birdStrike := rfl

@[simp] lemma dampStep_birdApplied (d : ℚ) (w : Sim) :
    (dampStep d w).birdApplied = w.birdApplied := rfl

-- Field-preservation lemmas for `speedStep`.

@[simp] lemma speedStep_damage (i : TickInput) (w : Sim) : (speedStep i w).damage = w.damage := rfl

@[simp] lemma speedStep_flag (i : TickInput) (w : Sim) :
    (speedStep i w).isAirbagTriggered = w.isAirbagTriggered := rfl

@[simp] lemma speedStep_landingState (i : TickInput) (w : Sim) :
    (speedStep i w).landingState = w.landingState := rfl

@[simp] lemma speedStep_posX (i : TickInput) (w : Sim) : (speedStep i w).posX = w.posX := rfl

@[simp] lemma speedStep_posY (i : TickInput) (w : Sim) : (speedStep i w).posY = w.posY := rfl

@[simp] lemma speedStep_posZ (i : TickInput) (w : Sim) : (speedStep i w).posZ = w.posZ := rfl

@[simp] lemma speedStep_throttle (i : TickInput) (w : Sim) :
    (speedStep i w).throttle = w.throttle := rfl

@[simp] lemma speedStep_birdStrike (i : TickInput) (w : Sim) :
    (speedStep i w).birdStrike = w.birdStrike := rfl

@[simp] lemma speedStep_birdApplied (i : TickInput) (w : Sim) :
    (speedStep i w).birdApplied = w.birdApplied := rfl

lemma speedStep_velocityZ (i : TickInput) (w : Sim) :
    (speedStep i w).velocityZ =
      (if i.env.throttleFailure then THROTTLE_FAILURE_SPEED else BASE_SPEED) * w.throttle +
        (if i.env.autopilot then (6 : ℚ) else 0) - headwindEffect i := rfl

-- Field-preservation lemmas for `phaseStep`.

@[simp] lemma phaseStep_damage (i : TickInput) (w : Sim) : (phaseStep i w).damage = w.damage := by
  unfold phaseStep
  rcases h : w.landingState <;> simp only [h] <;> (repeat' split) <;> rfl

@[simp] lemma phaseStep_flag (i : TickInput) (w : Sim) :
    (phaseStep i w).isAirbagTriggered = w.isAirbagTriggered := by
  unfold phaseStep
  rcases h : w.landingState <;> simp only [h] <;> (repeat' split) <;> rfl

@[simp] lemma phaseStep_posX (i : TickInput) (w : Sim) : (phaseStep i w).posX = w.posX := by
  unfold phaseStep
  rcases h : w.landingState <;> simp only [h] <;> (repeat' split) <;> rfl

@[simp] lemma phaseStep_velocityZ (i : TickInput) (w : Sim) :
    (phaseStep i w).velocityZ = w.velocityZ := by
  unfold phaseStep
  rcases h : w.landingState <;> simp only [h] <;> (repeat' split) <;> rfl

@[simp] lemma phaseStep_throttle (i : TickInput) (w : Sim) :
    (phaseStep i w).throttle = w.throttle := by
  unfold phaseStep
  rcases h : w.landingState <;> simp only [h] <;> (repeat' split) <;> rfl

@[simp] lemma phaseStep_birdStrike (i : TickInput) (w : Sim) :
    (phaseStep i w).birdStrike = w.birdStrike := by
  unfold phaseStep
  rcases h : w.landingState <;> simp only [h] <;> (repeat' split) <;> rfl

@[simp] lemma phaseStep_birdApplied (i : TickInput) (w : Sim) :
    (phaseStep i w).birdApplied = w.birdApplied := by
  unfold phaseStep
  rcases h : w.landingState <;> simp only [h] <;> (repeat' split) <;> rfl

-- Field-preservation lemmas for `aiAssistFn` and `assistStep`.

@[simp] lemma aiAssistFn_damage (i : TickInput) (w : Sim) : (aiAssistFn i w).damage = w.damage := by
  unfold aiAssistFn; dsimp only; (repeat' split) <;> rfl

@[simp] lemma aiAssistFn_flag (i : TickInput) (w : Sim) :
    (aiAssistFn i w).isAirbagTriggered = w.isAirbagTriggered := by
  unfold aiAssistFn; dsimp only; (repeat' split) <;> rfl

@[simp] lemma aiAssistFn_landingState (i : TickInput) (w : Sim) :
    (aiAssistFn i w).landingState = w.landingState := by
  unfold aiAssistFn; dsimp only; (repeat' split) <;> rfl

@[simp] lemma aiAssistFn_posX (i : TickInput) (w : Sim) : (aiAssistFn i w).posX = w.posX := by
  unfold aiAssistFn; dsimp only; (repeat' split) <;> rfl

@[simp] lemma aiAssistFn_posY (i : TickInput) (w : Sim) : (aiAssistFn i w).posY = w.posY := by
  unfold aiAssistFn; dsimp only; (repeat' split) <;> rfl

@[simp] lemma aiAssistFn_posZ (i : TickInput) (w : Sim) : (aiAssistFn i w).posZ = w.posZ := by
  unfold aiAssistFn; dsimp only; (repeat' split) <;> rfl

@[simp] lemma aiAssistFn_velocityZ (i : TickInput) (w : Sim) :
    (aiAssistFn i w).velocityZ = w.velocityZ := by
  unfold aiAssistFn; dsimp only; (repeat' split) <;> rfl

@[simp] lemma aiAssistFn_birdStrike (i : TickInput) (w : Sim) :
    (aiAssistFn i w).birdStrike = w.birdStrike := by
  unfold aiAssistFn; dsimp only; (repeat' split) <;> rfl

@[simp] lemma aiAssistFn_birdApplied (i : TickInput) (w : Sim) :
    (aiAssistFn i w).birdApplied = w.birdApplied := by
  unfold aiAssistFn; dsimp only; (repeat' split) <;> rfl

@[simp] lemma assistStep_damage (i : TickInput) (w : Sim) : (assistStep i w).damage = w.damage := by
  unfold assistStep; split <;> simp

@[simp] lemma assistStep_flag (i : TickInput) (w : Sim) :
    (assistStep i w).isAirbagTriggered = w.isAirbagTriggered := by
  unfold assistStep; split <;> simp

@[simp] lemma assistStep_landingState (i : TickInput) (w : Sim) :
    (assistStep i w).landingState = w.landingState := by
  unfold assistStep; split <;> simp

@[simp] lemma assistStep_posX (i : TickInput) (w : Sim) : (assistStep i w).posX = w.posX := by
  unfold assistStep; split <;> simp

@[simp] lemma assistStep_posY (i : TickInput) (w : Sim) : (assistStep i w).posY = w.posY := by
  unfold assistStep; split <;> simp

@[simp] lemma assistStep_posZ (i : TickInput) (w : Sim) : (assistStep i w).posZ = w.posZ := by
  unfold assistStep; split <;> simp

@[simp] lemma assistStep_velocityZ (i : TickInput) (w : Sim) :
    (assistStep i w).velocityZ = w.velocityZ := by
  unfold assistStep; split <;> simp

@[simp] lemma assistStep_birdStrike (i : TickInput) (w : Sim) :
    (assistStep i w).birdStrike = w.birdStrike := by
  unfold assistStep; split <;> simp

@[simp] lemma assistStep_birdApplied (i : TickInput) (w : Sim) :
    (assistStep i w).birdApplied = w.birdApplied := by
  unfold assistStep; split <;> simp

-- Branch lemmas for `phaseStep`.

lemma phaseStep_crashed (i : TickInput) (w : Sim) (h : w.landingState = Phase.crashed) :
    (phaseStep i w).landingState = Phase.crashed := by
  unfold phaseStep; simp only [h]; split <;> rfl

lemma phaseStep_stopped (i : TickInput) (w : Sim) (h : w.landingState = Phase.stopped) :
    phaseStep i w = w := by
  unfold phaseStep; simp only [h]

lemma phaseStep_emergency_landingState (i : TickInput) (w : Sim)
    (h : w.landingState = Phase.emergency_descent) :
    (phaseStep i w).landingState =
      (if w.posY - i.delta * 5 ≤ LANDING_ALTITUDE then Phase.rolling
        else Phase.emergency_descent) := by
  unfold phaseStep; simp only [h]
  rw [qmax_eq_max]
  by_cases hc : w.posY - i.delta * 5 ≤ LANDING_ALTITUDE
  · rw [if_pos (max_le le_rfl hc), if_pos hc]
  · have hnot : ¬ max LANDING_ALTITUDE (w.posY - i.delta * 5) ≤ LANDING_ALTITUDE :=
      fun hle => hc (max_le_iff.mp hle).2
    rw [if_neg hnot, if_neg hc]

lemma phaseStep_flaring_high (i : TickInput) (w : Sim)
    (h : w.landingState = Phase.flaring)
    (hy : LANDING_ALTITUDE + 0.05 < lerp w.posY (LANDING_ALTITUDE + 0.1) (i.delta * 0.9)) :
    (phaseStep i w).landingState = Phase.flaring ∧
    (phaseStep i w).posY = lerp w.posY (LANDING_ALTITUDE + 0.1) (i.delta * 0.9) := by
  unfold phaseStep; simp only [h]
  rw [if_neg (not_le.mpr hy)]
  exact ⟨rfl, rfl⟩

lemma phaseStep_approaching_posZ (i : TickInput) (w : Sim)
    (h : w.landingState = Phase.approaching) :
    (phaseStep i w).posZ = w.posZ + w.velocityZ * i.delta := by
  unfold phaseStep; simp only [h]
  split <;> rfl

-- Tick-level lemmas.

lemma tick_damage_cases (i : TickInput) (w : Sim) :
    (tick i w).damage = w.damage ∨ (tick i w).damage = qmin 1 (w.damage + 0.55) := by
  unfold tick
  simp only [assistStep_damage, phaseStep_damage, speedStep_damage, dampStep_damage]
  rcases birdStep_damage_cases (weatherStep i (triggerStep i w)) with hc | hc <;>
    simp [hc, weatherStep_damage, triggerStep_damage]

lemma tick_damage_mono (i : TickInput) (w : Sim) (h1 : w.damage ≤ 1) :
    w.damage ≤ (tick i w).damage := by
  rcases tick_damage_cases i w with hc | hc <;> rw [hc]
  rw [qmin_eq_min]
  exact le_min h1 (by linarith)

lemma tick_damage_ub (i : TickInput) (w : Sim) (h1 : w.damage ≤ 1) :
    (tick i w).damage ≤ 1 := by
  rcases tick_damage_cases i w with hc | hc <;> rw [hc]
  · exact h1
  · rw [qmin_eq_min]; exact min_le_left _ _

lemma tick_damage_lb (i : TickInput) (w : Sim) (h0 : 0 ≤ w.damage) :
    0 ≤ (tick i w).damage := by
  rcases tick_damage_cases i w with hc | hc <;> rw [hc]
  · exact h0
  · rw [qmin_eq_min]
    exact le_min zero_le_one (by linarith)

lemma tick_flag (i : TickInput) (w : Sim) :
    (tick i w).isAirbagTriggered =
      (w.isAirbagTriggered || (evaluateRisk i.env w || i.env.manualDeploy)) := by
  unfold tick
  simp only [assistStep_flag, phaseStep_flag, speedStep_flag, dampStep_flag, birdStep_flag,
    weatherStep_flag]
  exact triggerStep_flag i w

lemma tick_flag_mono (i : TickInput) (w : Sim) (h : w.isAirbagTriggered = true) :
    (tick i w).isAirbagTriggered = true := by
  rw [tick_flag, h, Bool.true_or]

-- Run-level lemmas.

lemma run_nil (w : Sim) : run w [] = w := rfl

lemma run_cons (w : Sim) (a : TickInput) (t : List TickInput) :
    run w (a :: t) = run (tick a w) t := rfl

lemma run_append (w : Sim) (l1 l2 : List TickInput) :
    run w (l1 ++ l2) = run (run w l1) l2 := by
  simp [run, List.foldl_append]

lemma run_damage_invariant (l : List TickInput) (w : Sim)
    (h0 : 0 ≤ w.damage) (h1 : w.damage ≤ 1) :
    0 ≤ (run w l).damage ∧ (run w l).damage ≤ 1 ∧ w.damage ≤ (run w l).damage := by
  induction l generalizing w with
  | nil => exact ⟨h0, h1, le_rfl⟩
  | cons a t ih =>
      rw [run_cons]
      obtain ⟨g0, g1, g2⟩ := ih (tick a w) (tick_damage_lb a w h0) (tick_damage_ub a w h1)
      exact ⟨g0, g1, le_trans (tick_damage_mono a w h1) g2⟩

lemma run_flag_mono (l : List TickInput) (w : Sim) (h : w.isAirbagTriggered = true) :
    (run w l).isAirbagTriggered = true := by
  induction l generalizing w with
  | nil => exact h
  | cons a t ih => rw [run_cons]; exact ih (tick a w) (tick_flag_mono a w h)

/-- Claim C1: within one simulation run started from the initial state (no reset
in between), `damage` is non-decreasing: after every tick it is at least its
value before that tick, for every sequence of per-frame inputs and every
configuration.  (The per-tick inputs in the list carry arbitrary config flags,
deltas, wind trig values and random draws.) -/
theorem damage_monotone_per_tick (l : List TickInput) (n : ℕ) :
    (run initState (l.take n)).damage ≤ (run initState (l.take (n + 1))).damage := by
  have hinv := run_damage_invariant (l.take n) initState (by norm_num [initState]) (by norm_num [initState])
  rw [List.take_succ, run_append]
  cases hg : l[n]? with
  | none => exact le_rfl
  | some a => exact tick_damage_mono a _ hinv.2.1

/-- Claim C10: `damage` stays in `[0, 1]` for every run from the initial state:
it starts at 0, and the only operation that raises it (the bird-strike
increment) caps the result at 1 with `Math.min`. -/
theorem damage_within_unit_interval (l : List TickInput) :
    0 ≤ (run initState l).damage ∧ (run initState l).damage ≤ 1 := by
  have h := run_damage_invariant l initState (by norm_num [initState]) (by norm_num [initState])
  exact ⟨h.1, h.2.1⟩

/-- Claim C2: the airbag/cushion flag is a one-way latch within a run: once it
is true at some point of a run it is true at every later point, for arbitrary
per-frame inputs; no tick resets it to false.  (For a Boolean trace this is
exactly the claim: it transitions false to true at most once and never
reverts.) -/
theorem cushion_latch (w : Sim) (l : List TickInput) (m n : ℕ) (hmn : m ≤ n)
    (h : (run w (l.take m)).isAirbagTriggered = true) :
    (run w (l.take n)).isAirbagTriggered = true := by
  obtain ⟨k, rfl⟩ := Nat.exists_eq_add_of_le hmn
  rw [List.take_add, run_append]
  exact run_flag_mono _ _ h

/-- Witness for C2 at a concrete state and input list. -/
theorem cushion_latch_witness :
    (run trigState ([nominalInput].take 1)).isAirbagTriggered = true :=
  cushion_latch trigState [nominalInput] 0 1 (Nat.zero_le 1) rfl

/-- Claim C3: `evaluateRisk` is a pure predicate returning true exactly when
altitude is below the critical threshold (70) and at least one of the following
holds: vertical speed below the steep-descent threshold (-1000), damage above
the critical threshold (0.7), gear failure with longitudinal position past the
runway-proximity threshold (100), or a stall (effective forward speed
`velocityZ * throttle` below 15 while near the ground, altitude below 20). -/
theorem evaluateRisk_characterization (env : Env) (w : Sim) :
    evaluateRisk env w = true ↔
      w.posY < 70 ∧
        (w.vs < -1000 ∨ w.damage > 0.7 ∨ (env.gearFailure = true ∧ w.posZ > 100) ∨
          (w.velocityZ * w.throttle < 15 ∧ w.posY < 20)) := by
  unfold evaluateRisk
  simp [Bool.and_eq_true, Bool.or_eq_true, decide_eq_true_eq, or_assoc]

/-- Claim C4 counterexample: two distinct rising edges of the bird-strike
request within one run do NOT apply the increment twice.  After the first edge
the damage is 0.55; a second rising edge (delivered after the first was
consumed) leaves damage at 0.55 instead of `min 1 (0.55 + 0.55) = 1`, and does
not even clear the request flag, because the internal `_birdApplied` one-shot
guard is never reset within a run. -/
theorem birdStrike_second_edge_counterexample :
    (tick zeroDeltaInput (requestBirdStrike initState)).damage = 0.55 ∧
    (tick zeroDeltaInput
        (requestBirdStrike (tick zeroDeltaInput (requestBirdStrike initState)))).damage = 0.55 ∧
    (tick zeroDeltaInput
        (requestBirdStrike (tick zeroDeltaInput (requestBirdStrike initState)))).birdStrike
      = true ∧
    (0.55 : ℚ) ≠ qmin 1 (0.55 + 0.55) := by decide

/-- Claim C4 (amended): only the FIRST rising edge of the bird-strike request
increases damage, by exactly `min 1 (damage + 0.55)`, and clears the request
flag in the same tick while latching the `_birdApplied` guard; any later rising
edge in the same run (guard already latched) leaves damage unchanged and does
not clear the request flag. -/
theorem birdStrike_first_edge_only (i : TickInput) (w : Sim)
    (hreq : w.birdStrike = true) (hnc : w.landingState ≠ Phase.crashed) :
    (w.birdApplied = false →
      (tick i w).damage = qmin 1 (w.damage + 0.55) ∧
      (tick i w).birdStrike = false ∧ (tick i w).birdApplied = true) ∧
    (w.birdApplied = true →
      (tick i w).damage = w.damage ∧ (tick i w).birdStrike = true ∧
      (tick i w).birdApplied = true) := by
  set x := weatherStep i (triggerStep i w) with hx
  have hxb : x.birdStrike = w.birdStrike := by simp [hx]
  have hxa : x.birdApplied = w.birdApplied := by simp [hx]
  have hxd : x.damage = w.damage := by simp [hx]
  have hxl : x.landingState ≠ Phase.crashed := by
    rw [hx, weatherStep_landingState]
    exact triggerStep_landingState_ne_crashed i w hnc
  have htd : (tick i w).damage = (birdStep x).damage := by
    unfold tick; simp [hx]
  have hts : (tick i w).birdStrike = (birdStep x).birdStrike := by
    unfold tick; simp [hx]
  have hta : (tick i w).birdApplied = (birdStep x).birdApplied := by
    unfold tick; simp [hx]
  constructor
  · intro hap
    have hf : birdFires x = true := by
      unfold birdFires
      simp [hxb, hreq, hxa, hap, hxl]
    rw [birdStep_of_fires x hf] at htd hts hta
    exact ⟨by rw [htd, hxd], by rw [hts], by rw [hta]⟩
  · intro hap
    have hf : birdFires x = false := by
      unfold birdFires
      simp [hxa, hap]
    rw [birdStep_of_not_fires x hf] at htd hts hta
    exact ⟨by rw [htd, hxd], by rw [hts, hxb, hreq], by rw [hta, hxa, hap]⟩

/-- Witness for the amended C4 theorem at a concrete first rising edge. -/
theorem birdStrike_first_edge_only_witness :
    (tick zeroDeltaInput (requestBirdStrike initState)).damage =
      qmin 1 ((requestBirdStrike initState).damage + 0.55) ∧
    (tick zeroDeltaInput (requestBirdStrike initState)).birdStrike = false ∧
    (tick zeroDeltaInput (requestBirdStrike initState)).birdApplied = true :=
  (birdStrike_first_edge_only zeroDeltaInput (requestBirdStrike initState) (by decide)
    (by decide)).1 (by decide)

/-- Claim C5 counterexample: a pending manual deploy while airborne (altitude 1,
above the landing altitude 0.9, phase approaching, cushion not deployed) does
latch the cushion, but the end-of-tick phase is `rolling`, not
`emergency_descent`: the forced emergency descent reaches ground level within
the same tick. -/
theorem manualDeploy_phase_counterexample :
    lowState.landingState = Phase.approaching ∧
    LANDING_ALTITUDE < lowState.posY ∧
    lowState.isAirbagTriggered = false ∧
    deployInput.env.manualDeploy = true ∧
    (tick deployInput lowState).isAirbagTriggered = true ∧
    (tick deployInput lowState).landingState ≠ Phase.emergency_descent ∧
    (tick deployInput lowState).landingState = Phase.rolling := by decide

/-- Claim C5 (amended): a pending manual-deploy request with the cushion not
yet deployed latches the cushion flag on the very next tick and forces the
phase to `emergency_descent` during that tick, regardless of any automatic
risk condition; the phase at the end of the tick is `emergency_descent` unless
the forced descent already reaches the landing altitude within the tick
(altitude minus `5 * delta` at or below the landing altitude), in which case it
is `rolling`.  (Stated with turbulence off so that the altitude used by the
descent is not additionally jittered.) -/
theorem manualDeploy_forces_emergency (i : TickInput) (w : Sim)
    (hm : i.env.manualDeploy = true) (hn : w.isAirbagTriggered = false)
    (ht : i.env.turbulence = false) :
    (tick i w).isAirbagTriggered = true ∧
    (tick i w).landingState =
      (if w.posY - i.delta * 5 ≤ LANDING_ALTITUDE then Phase.rolling
        else Phase.emergency_descent) := by
  have hfire : triggerFires i w = true := by
    unfold triggerFires
    simp [hm, hn]
  have htr := triggerStep_of_fires i w hfire
  constructor
  · rw [tick_flag, hm]; simp
  · unfold tick
    set y := speedStep i (dampStep i.delta (birdStep (weatherStep i (triggerStep i w)))) with hy
    have hyl : y.landingState = Phase.emergency_descent := by
      simp [hy, htr]
    have hyy : y.posY = w.posY := by
      rw [hy, speedStep_posY, dampStep_posY, birdStep_posY,
        weatherStep_posY_of_calm i _ ht, triggerStep_posY]
    rw [assistStep_landingState, phaseStep_emergency_landingState i y hyl, hyy]

/-- Witness for the amended C5 theorem at a concrete airborne state. -/
theorem manualDeploy_forces_emergency_witness :
    (tick deployInput lowState).isAirbagTriggered = true ∧
    (tick deployInput lowState).landingState =
      (if lowState.posY - deployInput.delta * 5 ≤ LANDING_ALTITUDE then Phase.rolling
        else Phase.emergency_descent) :=
  manualDeploy_forces_emergency deployInput lowState (by decide) (by decide) (by decide)

/-- Claim C6: in the flaring phase the altitude converges to
`LANDING_ALTITUDE + 0.1 = 1.0` from above, which is strictly above the
touchdown test threshold `LANDING_ALTITUDE + 0.05 = 0.95`; hence whenever the
aircraft is flaring above altitude 1 under the nominal configuration (no
turbulence, no gear failure, no manual deploy, no dangerous descent rate,
damage and stall conditions quiet), the next tick is still flaring and still
above altitude 1.  Since the approach hand-off enters flaring at altitude at
least 6.9, the nominal run claimed by the spec can never reach `touchdown`,
`rolling` or `stopped`. -/
theorem flaring_never_reaches_touchdown (i : TickInput) (w : Sim)
    (hp : w.landingState = Phase.flaring) (hy : 1 < w.posY)
    (hd1 : i.delta * 0.9 < 1)
    (ht : i.env.turbulence = false) (hg : i.env.gearFailure = false)
    (hm : i.env.manualDeploy = false)
    (hvs : -1000 ≤ w.vs) (hdm : w.damage ≤ 0.7)
    (hsp : 15 ≤ w.velocityZ * w.throttle) :
    (tick i w).landingState = Phase.flaring ∧ 1 < (tick i w).posY := by
  have hrisk : evaluateRisk i.env w = false := by
    unfold evaluateRisk
    simp [hg, not_lt.mpr hvs, not_lt.mpr hdm, not_lt.mpr hsp]
  have hfire : triggerFires i w = false := by
    unfold triggerFires
    simp [hrisk, hm]
  have htr := triggerStep_of_not_fires i w hfire
  unfold tick
  set y := speedStep i (dampStep i.delta (birdStep (weatherStep i (triggerStep i w)))) with hy2
  have hyl : y.landingState = Phase.flaring := by simp [hy2, htr, hp]
  have hyy : y.posY = w.posY := by
    rw [hy2, speedStep_posY, dampStep_posY, birdStep_posY,
      weatherStep_posY_of_calm i _ ht, triggerStep_posY]
  have hkey : (1 : ℚ) < lerp w.posY (LANDING_ALTITUDE + 0.1) (i.delta * 0.9) := by
    unfold lerp LANDING_ALTITUDE
    nlinarith [mul_pos (show (0:ℚ) < 1 - i.delta * 0.9 by linarith)
      (show (0:ℚ) < w.posY - 1 by linarith)]
  have hylerp : LANDING_ALTITUDE + 0.05 <
      lerp y.posY (LANDING_ALTITUDE + 0.1) (i.delta * 0.9) := by
    rw [hyy]
    have hlt : LANDING_ALTITUDE + 0.05 < 1 := by norm_num [LANDING_ALTITUDE]
    linarith
  obtain ⟨hl, hye⟩ := phaseStep_flaring_high i y hyl hylerp
  refine ⟨?_, ?_⟩
  · rw [assistStep_landingState, hl]
  · rw [assistStep_posY, hye, hyy]
    exact hkey

/-- Witness for the C6 theorem at the concrete flare-entry state of a nominal
run (altitude 17, longitudinal position 120). -/
theorem flaring_never_reaches_touchdown_witness :
    (tick nominalInput flareState).landingState = Phase.flaring ∧
    1 < (tick nominalInput flareState).posY :=
  flaring_never_reaches_touchdown nominalInput flareState (by decide) (by decide) (by decide)
    (by decide) (by decide) (by decide) (by decide) (by decide) (by decide)

/-- Claim C7 counterexample: a crashed state with a pending manual-deploy
request and the cushion not yet deployed leaves `crashed` in a single tick (the
airbag trigger block has no phase guard), ending in `rolling`. -/
theorem terminal_phase_counterexample :
    crashedState.landingState = Phase.crashed ∧
    crashedState.isAirbagTriggered = false ∧
    deployInput.env.manualDeploy = true ∧
    (tick deployInput crashedState).landingState ≠ Phase.crashed ∧
    (tick deployInput crashedState).landingState = Phase.rolling := by decide

/-- Claim C7 (amended): `crashed` and `stopped` are terminal for every tick in
which the airbag trigger block does not fire, i.e. whenever the cushion is
already deployed or neither the risk evaluator nor a manual-deploy request is
active; the phase switch itself never leaves either phase.  (Without that
proviso the trigger block, which lacks a phase guard, can move `crashed` or
`stopped` to `emergency_descent` and onward.) -/
theorem terminal_phases_without_trigger (i : TickInput) (w : Sim)
    (hp : w.landingState = Phase.crashed ∨ w.landingState = Phase.stopped)
    (hq : triggerFires i w = false) :
    (tick i w).landingState = w.landingState := by
  have htr := triggerStep_of_not_fires i w hq
  unfold tick
  set y := speedStep i (dampStep i.delta (birdStep (weatherStep i (triggerStep i w)))) with hy
  have hyl : y.landingState = w.landingState := by simp [hy, htr]
  rw [assistStep_landingState]
  rcases hp with hp | hp
  · rw [phaseStep_crashed i y (hyl.trans hp), hp]
  · rw [phaseStep_stopped i y (hyl.trans hp), hyl]

/-- Witness for the amended C7 theorem: a crashed state with the cushion
already deployed stays crashed. -/
theorem terminal_phases_without_trigger_witness :
    (tick nominalInput crashedQuiet).landingState = crashedQuiet.landingState :=
  terminal_phases_without_trigger nominalInput crashedQuiet (Or.inl (by decide)) (by decide)

/-- Claim C8 counterexample: the per-tick update does not clamp the elapsed
time delta to 0.05: with identical configuration and state, a tick with
delta 0.1 produces a different longitudinal position than a tick with
delta 0.05. -/
theorem delta_clamp_counterexample :
    smallDeltaInput.delta = 0.05 ∧ 0.05 < bigDeltaInput.delta ∧
    bigDeltaInput.env = smallDeltaInput.env ∧
    (tick bigDeltaInput initState).posZ ≠ (tick smallDeltaInput initState).posZ := by decide

/-- Claim C8 (amended): the update uses the supplied delta directly, with no
clamping: in the approaching phase (with no bird strike pending and the airbag
trigger quiet) the longitudinal position advances by exactly
`velocityZ * delta` computed from the raw delta, so ticks with delta above
0.05 differ from ticks with delta 0.05. -/
theorem tick_uses_raw_delta (i : TickInput) (w : Sim)
    (hp : w.landingState = Phase.approaching)
    (hb : w.birdStrike = false)
    (hq : triggerFires i w = false) :
    (tick i w).posZ = w.posZ +
      ((if i.env.throttleFailure then THROTTLE_FAILURE_SPEED else BASE_SPEED) * w.throttle +
        (if i.env.autopilot then (6 : ℚ) else 0) - headwindEffect i) * i.delta := by
  have htr := triggerStep_of_not_fires i w hq
  have hxb : birdFires (weatherStep i (triggerStep i w)) = false := by
    unfold birdFires
    simp [htr, hb]
  have hxeq : birdStep (weatherStep i (triggerStep i w)) = weatherStep i (triggerStep i w) :=
    birdStep_of_not_fires _ hxb
  rw [htr] at hxeq
  unfold tick
  set y := speedStep i (dampStep i.delta (birdStep (weatherStep i (triggerStep i w)))) with hy
  have hyl : y.landingState = Phase.approaching := by simp [hy, hxeq, htr, hp]
  have hyz : y.posZ = w.posZ := by simp [hy, hxeq, htr]
  have hyv : y.velocityZ =
      (if i.env.throttleFailure then THROTTLE_FAILURE_SPEED else BASE_SPEED) * w.throttle +
        (if i.env.autopilot then (6 : ℚ) else 0) - headwindEffect i := by
    rw [hy, speedStep_velocityZ, dampStep_throttle, htr, hxeq, weatherStep_throttle]
  rw [assistStep_posZ, phaseStep_approaching_posZ i y hyl, hyz, hyv]

/-- Witness for the amended C8 theorem at delta 0.1 from the initial state. -/
theorem tick_uses_raw_delta_witness :
    (tick bigDeltaInput initState).posZ = initState.posZ +
      ((if bigDeltaInput.env.throttleFailure then THROTTLE_FAILURE_SPEED else BASE_SPEED) *
          initState.throttle +
        (if bigDeltaInput.env.autopilot then (6 : ℚ) else 0) - headwindEffect bigDeltaInput) *
        bigDeltaInput.delta :=
  tick_uses_raw_delta bigDeltaInput initState (by decide) (by decide) (by decide)

lemma birdStep_throttle_cases (w : Sim) :
    (birdStep w).throttle = w.throttle ∨ (birdStep w).throttle = qmax 0 (w.throttle - 0.6) := by
  unfold birdStep; split
  · right; rfl
  · left; rfl

lemma abs_qmax_floor_le (u : ℚ) : |qmax 0 (u - 0.6)| ≤ |u| := by
  rw [qmax_eq_max, abs_of_nonneg (le_max_left 0 (u - 0.6))]
  refine max_le (abs_nonneg u) ?_
  have := le_abs_self u
  linarith

/-- Claim C9: for every windSpeed (negative values included) and every
windDirection (values outside `[0, 360)` included — represented by arbitrary
values of `Math.sin`/`Math.cos`, which JavaScript keeps in `[-1, 1]` for every
finite argument), one tick produces velocity and position components bounded by
explicit finite expressions in the inputs: the recomputed `velocityZ` is
bounded by `40 * |throttle| + 6 + 0.1 * |windSpeed|`, and the lateral position
moves by at most `0.02 * |windSpeed| * |delta|`.  In the exact-rational
embedding this is the meaning of "no NaN/divergent physics". -/
theorem wind_inputs_keep_tick_bounded (i : TickInput) (w : Sim)
    (hs : |i.sinWind| ≤ 1) (hc : |i.cosWind| ≤ 1) :
    |(tick i w).velocityZ| ≤ 40 * |w.throttle| + 6 + 0.1 * |i.env.windSpeed| ∧
    |(tick i w).posX - w.posX| ≤ 0.02 * |i.env.windSpeed| * |i.delta| := by
  constructor
  · have hv : (tick i w).velocityZ =
        (if i.env.throttleFailure then THROTTLE_FAILURE_SPEED else BASE_SPEED) *
          (birdStep (weatherStep i (triggerStep i w))).throttle +
          (if i.env.autopilot then (6 : ℚ) else 0) - headwindEffect i := by
      unfold tick
      rw [assistStep_velocityZ, phaseStep_velocityZ, speedStep_velocityZ, dampStep_throttle]
    set t := (birdStep (weatherStep i (triggerStep i w))).throttle with htdef
    have htb : |t| ≤ |w.throttle| := by
      rcases birdStep_throttle_cases (weatherStep i (triggerStep i w)) with hcase | hcase <;>
        rw [htdef, hcase, weatherStep_throttle, triggerStep_throttle]
      exact abs_qmax_floor_le w.throttle
    have hA : |(if i.env.throttleFailure then THROTTLE_FAILURE_SPEED else BASE_SPEED) * t| ≤
        40 * |w.throttle| := by
      rw [abs_mul]
      have hb40 : |(if i.env.throttleFailure then THROTTLE_FAILURE_SPEED else BASE_SPEED)| ≤
          (40 : ℚ) := by
        split <;> norm_num [THROTTLE_FAILURE_SPEED, BASE_SPEED]
      have h0 : (0:ℚ) ≤ |t| := abs_nonneg t
      nlinarith [abs_nonneg (if i.env.throttleFailure then THROTTLE_FAILURE_SPEED else BASE_SPEED)]
    have hB : |(if i.env.autopilot then (6 : ℚ) else 0)| ≤ 6 := by
      split <;> norm_num
    have hC : |headwindEffect i| ≤ 0.1 * |i.env.windSpeed| := by
      unfold headwindEffect
      rw [abs_mul, abs_mul]
      have h1 : |i.cosWind| * |i.env.windSpeed| ≤ 1 * |i.env.windSpeed| :=
        mul_le_mul_of_nonneg_right hc (abs_nonneg _)
      have h2 : |(0.1 : ℚ)| = 0.1 := by norm_num
      rw [h2]
      nlinarith [abs_nonneg i.env.windSpeed]
    rw [hv]
    set A := (if i.env.throttleFailure then THROTTLE_FAILURE_SPEED else BASE_SPEED) * t
    set B := (if i.env.autopilot then (6 : ℚ) else 0)
    have htri1 : |A + B - headwindEffect i| ≤ |A + B| + |headwindEffect i| := by
      rw [sub_eq_add_neg]
      refine (abs_add _ _).trans ?_
      rw [abs_neg]
    have htri2 : |A + B| ≤ |A| + |B| := abs_add _ _
    linarith
  · have hpx : (tick i w).posX = (weatherStep i (triggerStep i w)).posX := by
      unfold tick
      rw [assistStep_posX, phaseStep_posX, speedStep_posX, dampStep_posX, birdStep_posX]
    rw [hpx, weatherStep_posX, triggerStep_posX]
    split
    · have hne : w.posX - crosswindEffect i * i.delta - w.posX = -(crosswindEffect i * i.delta) := by
        ring
      rw [hne, abs_neg]
      unfold crosswindEffect
      rw [abs_mul, abs_mul, abs_mul]
      have h002 : |(0.02 : ℚ)| = 0.02 := by norm_num
      rw [h002]
      have h1 : |i.sinWind| * |i.env.windSpeed| ≤ 1 * |i.env.windSpeed| :=
        mul_le_mul_of_nonneg_right hs (abs_nonneg _)
      nlinarith [abs_nonneg i.env.windSpeed, abs_nonneg i.delta]
    · rw [sub_self, abs_zero]
      positivity

/-- Witness for the C9 theorem at the nominal frame input and initial state. -/
theorem wind_inputs_keep_tick_bounded_witness :
    |(tick nominalInput initState).velocityZ| ≤
      40 * |initState.throttle| + 6 + 0.1 * |nominalInput.env.windSpeed| ∧
    |(tick nominalInput initState).posX - initState.posX| ≤
      0.02 * |nominalInput.env.windSpeed| * |nominalInput.delta| :=
  wind_inputs_keep_tick_bounded nominalInput initState (by norm_num [nominalInput]) (by norm_num [nominalInput])

end SafeGlide
